import Mathlib

/-!
Verification of the Transfer Model dashboard (src/app.py) against its
specification.  The database (views `rf_overall_totals`, `rf_static`,
`rf_site_summary_display` and the stored procedures) is external to the
repository; it is modelled as an abstract state `Db` holding the view
contents, and the move procedure as an abstract function parameter.
SQL numerics are modelled as `ℚ`, SQL text as `String`, nullable columns
as `Option`.  The `@st.cache_data(ttl=30)` decorator is modelled as an
explicit process-wide cache threaded through the read-query layer, with
the wall clock passed explicitly.
-/

namespace TransferModel

/-- Row of the view `rf_overall_totals` (spec section 6). -/
structure TotalsRow where
  current_loads_annual : ℚ
  delta_loads_annual : ℚ
  current_hours_annual : ℚ
  delta_hours_annual : ℚ
  current_hours_monthly : ℚ
  delta_hours_monthly : ℚ
deriving DecidableEq

/-- Row of the view `rf_static` (spec section 6). -/
structure RfStaticRow where
  site_key : String
  from_facility : String
  address : String
  lat : ℚ
  lon : ℚ
  road_restrictions : String
  mt_total : ℚ
  mt_total_override : Option ℚ
  round_trip_hours : ℚ
  baseline_num_loads : ℚ
  current_num_loads : ℚ
  delta_num_loads : ℚ
  baseline_transfer_hours_yr : ℚ
  current_transfer_hours_yr : ℚ
  delta_transfer_hours_yr : ℚ
  material_stream : String
  load_name : String
deriving DecidableEq

/-- Row of the view `rf_site_summary_display`: the three named sort columns
plus the pre-formatted display metrics, which this layer never inspects. -/
structure SummaryRow where
  facility : String
  material_stream : String
  load_name : String
  display : String
deriving DecidableEq

/-- The external database state visible through the three views. -/
structure Db where
  rf_overall_totals : List TotalsRow
  rf_static : List RfStaticRow
  rf_site_summary_display : List SummaryRow
deriving DecidableEq

/-- One row of the `fetch_sites` result: exactly the SELECT list of the
grouped query in `fetch_sites` (src/app.py lines 38-55). -/
structure SiteAgg where
  site_key : String
  name : String
  address : String
  lat : ℚ
  lon : ℚ
  row_count : Nat
  road_restrictions : String
  mt_total : ℚ
  round_trip_hours : ℚ
  num_loads : ℚ
  transfer_hours_yr : ℚ
  baseline_num_loads : ℚ
  baseline_transfer_hours_yr : ℚ
deriving DecidableEq

/-- One row of the `fetch_rows_for_site` result (src/app.py lines 90-93). -/
structure SiteDetailRow where
  load_name : String
  material_stream : String
  mt_total : ℚ
  mt_current : ℚ
  baseline_num_loads : ℚ
  current_num_loads : ℚ
  delta_num_loads : ℚ
  baseline_transfer_hours_yr : ℚ
  current_transfer_hours_yr : ℚ
  delta_transfer_hours_yr : ℚ
deriving DecidableEq

/-- SQL `avg` over a column: sum divided by row count. -/
def qavg (l : List ℚ) : ℚ := l.sum / (l.length : ℚ)

/-- SQL `max` over a nonempty text column (lexicographic). -/
def listMaxStr : List String → String
  | [] => ""
  | x :: xs => xs.foldl (fun a b => if a < b then b else a) x

/-- The GROUP BY key of the `fetch_sites` query:
`(site_key, from_facility, address)`. -/
def siteKeyOf (r : RfStaticRow) : String × String × String :=
  (r.site_key, r.from_facility, r.address)

/-- The distinct GROUP BY keys of `rf_static`, in first-occurrence order. -/
def distinctKeys (rows : List RfStaticRow) : List (String × String × String) :=
  rows.foldl (fun ks r => if siteKeyOf r ∈ ks then ks else ks ++ [siteKeyOf r]) []

/-- The rows of one `(site_key, from_facility, address)` group. -/
def groupRows (rows : List RfStaticRow) (k : String × String × String) :
    List RfStaticRow :=
  rows.filter (fun r => decide (siteKeyOf r = k))

/-- The aggregated output row for one group, mirroring the SELECT list of
`fetch_sites`: `avg(lat)`, `avg(lon)`, `count(*)`, `max(road_restrictions)`,
`avg(mt_total)`, `avg(round_trip_hours)`, `sum(baseline_num_loads)` aliased
both as `num_loads` and as `baseline_num_loads`, and
`sum(baseline_transfer_hours_yr)` aliased both as `transfer_hours_yr` and as
`baseline_transfer_hours_yr`. -/
def aggOf (rows : List RfStaticRow) (k : String × String × String) : SiteAgg :=
  let g := groupRows rows k
  { site_key := k.1
    name := k.2.1
    address := k.2.2
    lat := qavg (g.map RfStaticRow.lat)
    lon := qavg (g.map RfStaticRow.lon)
    row_count := g.length
    road_restrictions := listMaxStr (g.map RfStaticRow.road_restrictions)
    mt_total := qavg (g.map RfStaticRow.mt_total)
    round_trip_hours := qavg (g.map RfStaticRow.round_trip_hours)
    num_loads := (g.map RfStaticRow.baseline_num_loads).sum
    transfer_hours_yr := (g.map RfStaticRow.baseline_transfer_hours_yr).sum
    baseline_num_loads := (g.map RfStaticRow.baseline_num_loads).sum
    baseline_transfer_hours_yr := (g.map RfStaticRow.baseline_transfer_hours_yr).sum }

/-- ORDER BY `name` of the `fetch_sites` query. -/
def siteLe (a b : SiteAgg) : Prop := a.name ≤ b.name

instance : DecidableRel siteLe :=
  fun a b => inferInstanceAs (Decidable (a.name ≤ b.name))

instance : IsTotal SiteAgg siteLe := ⟨fun a b => le_total a.name b.name⟩

instance : IsTrans SiteAgg siteLe := ⟨fun _ _ _ h h2 => le_trans h h2⟩

/-- The grouped, ordered query of `fetch_sites` (src/app.py lines 38-55). -/
def sitesQuery (db : Db) : List SiteAgg :=
  List.insertionSort siteLe ((distinctKeys db.rf_static).map (aggOf db.rf_static))

/-- ORDER BY `material_stream, load_name` of the per-site detail query. -/
def detailLe (a b : SiteDetailRow) : Prop :=
  a.material_stream < b.material_stream ∨
    (a.material_stream = b.material_stream ∧ a.load_name ≤ b.load_name)

instance : DecidableRel detailLe :=
  fun _ _ => inferInstanceAs (Decidable (_ ∨ _))

/-- Column list of the per-site detail query, including
`coalesce(mt_total_override, mt_total) as mt_current`
(src/app.py lines 90-93). -/
def toDetailRow (x : RfStaticRow) : SiteDetailRow :=
  { load_name := x.load_name
    material_stream := x.material_stream
    mt_total := x.mt_total
    mt_current := x.mt_total_override.getD x.mt_total
    baseline_num_loads := x.baseline_num_loads
    current_num_loads := x.current_num_loads
    delta_num_loads := x.delta_num_loads
    baseline_transfer_hours_yr := x.baseline_transfer_hours_yr
    current_transfer_hours_yr := x.current_transfer_hours_yr
    delta_transfer_hours_yr := x.delta_transfer_hours_yr }

/-- `fetch_rows_for_site` (src/app.py lines 88-99): uncached SELECT of the
site's rows, with the coalesced `mt_current` column, ordered by material
stream then load name. -/
def fetch_rows_for_site (db : Db) (site_key : String) : List SiteDetailRow :=
  List.insertionSort detailLe
    ((db.rf_static.filter (fun r => decide (r.site_key = site_key))).map toDetailRow)

/-- ORDER BY `"Facility", "Material Stream", "Load Name"` of the summary
query. -/
def summaryLe (a b : SummaryRow) : Prop :=
  a.facility < b.facility ∨
    (a.facility = b.facility ∧
      (a.material_stream < b.material_stream ∨
        (a.material_stream = b.material_stream ∧ a.load_name ≤ b.load_name)))

instance : DecidableRel summaryLe :=
  fun _ _ => inferInstanceAs (Decidable (_ ∨ _))

/-- The ordered query of `fetch_material_summary` (src/app.py lines 61-65). -/
def summaryQuery (db : Db) : List SummaryRow :=
  List.insertionSort summaryLe db.rf_site_summary_display

/-- One entry of the `st.cache_data` cache: a stored value and the time it
was stored. -/
structure CacheEntry (α : Type) where
  value : α
  storedAt : ℚ
deriving DecidableEq

/-- The process-wide `st.cache_data` cache.  Only `fetch_sites` and
`fetch_material_summary` are decorated in the source, and neither takes an
argument, so the cache has exactly one slot per decorated function. -/
structure Cache where
  sites : Option (CacheEntry (List SiteAgg))
  material_summary : Option (CacheEntry (List SummaryRow))
deriving DecidableEq

/-- `st.cache_data.clear()`: every entry is dropped. -/
def Cache.empty : Cache := { sites := none, material_summary := none }

/-- Result of one read-layer call: the rows handed to the caller, the cache
afterwards, and whether the SQL query was actually executed. -/
structure FetchResult (α : Type) where
  value : α
  cache : Cache
  executed : Bool
deriving DecidableEq

/-- `fetch_totals` (src/app.py lines 32-33): no cache decorator, so every
call executes the query against the current database and the cache is not
consulted or changed. -/
def fetch_totals (db : Db) (cache : Cache) : FetchResult (List TotalsRow) :=
  { value := db.rf_overall_totals, cache := cache, executed := true }

/-- `fetch_sites` (src/app.py lines 35-56), under `@st.cache_data(ttl=30)`:
a cached entry younger than 30 seconds is returned without running the
query; otherwise the query runs and the single shared entry is refreshed. -/
def fetch_sites (db : Db) (cache : Cache) (now : ℚ) : FetchResult (List SiteAgg) :=
  match cache.sites with
  | some e =>
    if now - e.storedAt < 30 then
      { value := e.value, cache := cache, executed := false }
    else
      { value := sitesQuery db
        cache := { cache with sites := some { value := sitesQuery db, storedAt := now } }
        executed := true }
  | none =>
      { value := sitesQuery db
        cache := { cache with sites := some { value := sitesQuery db, storedAt := now } }
        executed := true }

/-- `fetch_material_summary` (src/app.py lines 58-66), same 30s policy. -/
def fetch_material_summary (db : Db) (cache : Cache) (now : ℚ) :
    FetchResult (List SummaryRow) :=
  match cache.material_summary with
  | some e =>
    if now - e.storedAt < 30 then
      { value := e.value, cache := cache, executed := false }
    else
      { value := summaryQuery db
        cache := { cache with material_summary := some { value := summaryQuery db, storedAt := now } }
        executed := true }
  | none =>
      { value := summaryQuery db
        cache := { cache with material_summary := some { value := summaryQuery db, storedAt := now } }
        executed := true }

/-- The single row returned by the stored procedure
`move_material_between_sites`. -/
structure MoveRow where
  from_before : ℚ
  from_after : ℚ
  to_before : ℚ
  to_after : ℚ
deriving DecidableEq

/-- The stored procedure `move_material_between_sites` lives in the external
database; it is abstracted as a function that either returns its single row
or raises an error message. -/
def MoveProc : Type := String → String → ℚ → Except String MoveRow

/-- `call_move` (src/app.py lines 71-85): a pass-through to the stored
procedure.  The SQL CASTs to text/numeric and the `float(delta)` conversion
are identities on already-typed values, and no validation is performed. -/
def call_move (proc : MoveProc) (from_key to_key : String) (delta : ℚ) :
    Except String MoveRow :=
  proc from_key to_key delta

/-- The user-visible outputs a render pass can produce, in order.  The
`success` event carries the numbers interpolated into the confirmation
string of src/app.py lines 159-163; the `metrics`, `mapChart` and
`summaryTable` events carry the row-sets bound to those widgets. -/
inductive Event where
  | error (msg : String)
  | success (delta from_before from_after to_before to_after : ℚ)
  | write (text : String)
  | dataframe (rows : List SiteDetailRow)
  | rerun
  | metrics (totals : List TotalsRow)
  | mapChart (sites : List SiteAgg)
  | summaryTable (rows : List SummaryRow)
deriving DecidableEq

/-- Outcome of the move-button handler: the events shown, the cache
afterwards, the invocations of the stored procedure, and the site keys
passed to `fetch_rows_for_site`. -/
structure HandlerResult where
  events : List Event
  cache : Cache
  procCalls : List (String × String × ℚ)
  detailQueries : List String
deriving DecidableEq

/-- The `Move material` button handler (src/app.py lines 151-171).
`from_key`/`to_key` are the site keys already resolved from the select
boxes.  `st.rerun()` ends the script run and schedules a fresh one, so in
the success branch the trailing write/dataframe lines are never reached;
when the procedure raises, the `except` branch shows the error and control
falls through to the trailing lines, which query and display the from-site
rows. -/
def moveHandler (db : Db) (cache : Cache) (proc : MoveProc)
    (from_key to_key : String) (delta_mt : ℚ) : HandlerResult :=
  if delta_mt ≤ 0 then
    { events := [Event.error "Enter a positive MT amount."]
      cache := cache, procCalls := [], detailQueries := [] }
  else if from_key = to_key then
    { events := [Event.error "From and To must be different sites."]
      cache := cache, procCalls := [], detailQueries := [] }
  else
    match call_move proc from_key to_key delta_mt with
    | Except.ok res =>
        { events := [Event.success delta_mt res.from_before res.from_after
            res.to_before res.to_after, Event.rerun]
          cache := Cache.empty
          procCalls := [(from_key, to_key, delta_mt)]
          detailQueries := [] }
    | Except.error e =>
        { events := [Event.error e,
            Event.write "Updated rows for \x27From\x27 site:",
            Event.dataframe (fetch_rows_for_site db from_key)]
          cache := cache
          procCalls := [(from_key, to_key, delta_mt)]
          detailQueries := [from_key] }

/-- Python truthiness of the resolved connection string: `None` and the
empty string are falsy. -/
def pyTruthy : Option String → Bool
  | none => false
  | some s => decide (s ≠ "")

/-- The error shown when no connection string is found
(src/app.py line 25). -/
def noDsnMsg : String :=
  "No PG_DSN found. Set it in your local .env or in Streamlit Cloud Secrets."

/-- Startup outcome: either `st.stop()` after the error, or a resolved DSN. -/
inductive Init where
  | halt (msg : String)
  | proceed (dsn : String)
deriving DecidableEq

/-- PG_DSN resolution (src/app.py lines 17-26): the environment variable is
preferred; if it is unset or falsy the Streamlit secrets store is consulted
(a missing key raises and yields `None`); if the result is still falsy the
app shows the error and stops. -/
def appInit (env secrets : Option String) : Init :=
  let pg := if pyTruthy env then env else secrets
  if pyTruthy pg then Init.proceed (pg.getD "") else Init.halt noDsnMsg

/-- Outcome of one full script run: events in order, the cache afterwards,
and how many SQL queries were executed. -/
structure ScriptResult where
  events : List Event
  cache : Cache
  queriesExecuted : Nat
deriving DecidableEq

/-- The read-and-render part of the script with no button pressed
(src/app.py lines 118-247): totals are fetched (always executing their
query), then sites, then the material summary; the select-box wiring reads
only the already-fetched `sites` rows and issues no further queries. -/
def renderPass (db : Db) (cache : Cache) (now : ℚ) : ScriptResult :=
  let tot := fetch_totals db cache
  let sites := fetch_sites db tot.cache now
  let summary := fetch_material_summary db sites.cache now
  { events := [Event.metrics tot.value, Event.mapChart sites.value,
      Event.summaryTable summary.value]
    cache := summary.cache
    queriesExecuted :=
      1 + (if sites.executed then 1 else 0) + (if summary.executed then 1 else 0) }

/-- One script run from the top of the file: PG_DSN resolution first; on
failure the error is the only output and nothing is fetched or rendered
(`st.stop()` at line 26 precedes engine creation and every query). -/
def appScript (env secrets : Option String) (db : Db) (cache : Cache)
    (now : ℚ) : ScriptResult :=
  match appInit env secrets with
  | Init.halt m => { events := [Event.error m], cache := cache, queriesExecuted := 0 }
  | Init.proceed _ => renderPass db cache now

/-- Sample `rf_static` row: site A, first load.  Baseline and current loads
and hours differ, and an override is present. -/
def rowA1 : RfStaticRow :=
  { site_key := "A", from_facility := "Alpha", address := "1 Road"
    lat := 10, lon := 20, road_restrictions := "none"
    mt_total := 100, mt_total_override := some 80, round_trip_hours := 4
    baseline_num_loads := 2, current_num_loads := 3, delta_num_loads := 1
    baseline_transfer_hours_yr := 8, current_transfer_hours_yr := 12
    delta_transfer_hours_yr := 4
    material_stream := "ore", load_name := "L1" }

/-- Sample database with one site group (Alpha) whose current loads/hours
differ from its baseline values. -/
def cexDb : Db :=
  { rf_overall_totals := [⟨120, -4, 900, -30, 75, -3⟩]
    rf_static := [rowA1]
    rf_site_summary_display := [] }

/-- The site row `fetch_sites` produces for the Alpha group of `cexDb`:
every loads/hours column holds the baseline value 2 resp. 8, while the
group's current values are 3 and 12. -/
def alphaAgg : SiteAgg :=
  { site_key := "A", name := "Alpha", address := "1 Road"
    lat := 10, lon := 20, row_count := 1, road_restrictions := "none"
    mt_total := 100, round_trip_hours := 4
    num_loads := 2, transfer_hours_yr := 8
    baseline_num_loads := 2, baseline_transfer_hours_yr := 8 }

/-- A stored-procedure stand-in that always succeeds with fixed totals. -/
def okProc : MoveProc := fun _ _ _ => Except.ok ⟨100, 80, 50, 70⟩

/-- A stored-procedure stand-in that always raises. -/
def errProc : MoveProc := fun _ _ _ => Except.error "insufficient material"

/-! ## Helper lemmas -/

lemma foldl_distinct_sourced (rows : List RfStaticRow)
    (acc : List (String × String × String)) (k : String × String × String)
    (h : k ∈ rows.foldl
      (fun ks r => if siteKeyOf r ∈ ks then ks else ks ++ [siteKeyOf r]) acc) :
    k ∈ acc ∨ ∃ x ∈ rows, siteKeyOf x = k := by
  induction rows generalizing acc with
  | nil => exact Or.inl h
  | cons r rs ih =>
    simp only [List.foldl_cons] at h
    rcases ih _ h with h' | ⟨x, hx, hk⟩
    · by_cases hm : siteKeyOf r ∈ acc
      · rw [if_pos hm] at h'
        exact Or.inl h'
      · rw [if_neg hm, List.mem_append] at h'
        rcases h' with h' | h'
        · exact Or.inl h'
        · exact Or.inr ⟨r, List.mem_cons_self r rs, (List.mem_singleton.mp h').symm⟩
    · exact Or.inr ⟨x, List.mem_cons_of_mem r hx, hk⟩

lemma exists_source_of_mem_distinctKeys {rows : List RfStaticRow}
    {k : String × String × String} (h : k ∈ distinctKeys rows) :
    ∃ x ∈ rows, siteKeyOf x = k := by
  rcases foldl_distinct_sourced rows [] k h with h' | h'
  · cases h'
  · exact h'

lemma mem_sitesQuery_iff {db : Db} {r : SiteAgg} :
    r ∈ sitesQuery db ↔ ∃ k ∈ distinctKeys db.rf_static, aggOf db.rf_static k = r := by
  unfold sitesQuery
  rw [List.mem_insertionSort, List.mem_map]

lemma groupRows_pos_of_mem_distinctKeys {rows : List RfStaticRow}
    {k : String × String × String} (h : k ∈ distinctKeys rows) :
    0 < (groupRows rows k).length := by
  obtain ⟨x, hx, hk⟩ := exists_source_of_mem_distinctKeys h
  refine List.length_pos_of_mem (a := x) ?_
  unfold groupRows
  exact List.mem_filter.mpr ⟨hx, decide_eq_true hk⟩

lemma fetch_sites_miss {db : Db} {cache : Cache} {now : ℚ}
    (h : (fetch_sites db cache now).executed = true) :
    fetch_sites db cache now =
      { value := sitesQuery db
        cache := { cache with sites := some { value := sitesQuery db, storedAt := now } }
        executed := true } := by
  cases hc : cache.sites with
  | none => simp [fetch_sites, hc]
  | some e =>
    by_cases hlt : now - e.storedAt < 30
    · simp [fetch_sites, hc, hlt] at h
    · simp [fetch_sites, hc, hlt]

lemma fetch_sites_hit {db : Db} {cache : Cache} {now : ℚ}
    {e : CacheEntry (List SiteAgg)} (hc : cache.sites = some e)
    (hlt : now - e.storedAt < 30) :
    fetch_sites db cache now = { value := e.value, cache := cache, executed := false } := by
  simp [fetch_sites, hc, hlt]

lemma fetch_sites_none {db : Db} {cache : Cache} {now : ℚ}
    (hc : cache.sites = none) :
    fetch_sites db cache now =
      { value := sitesQuery db
        cache := { cache with sites := some { value := sitesQuery db, storedAt := now } }
        executed := true } := by
  simp [fetch_sites, hc]

lemma fetch_sites_stale {db : Db} {cache : Cache} {now : ℚ}
    {e : CacheEntry (List SiteAgg)} (hc : cache.sites = some e)
    (hge : ¬ now - e.storedAt < 30) :
    fetch_sites db cache now =
      { value := sitesQuery db
        cache := { cache with sites := some { value := sitesQuery db, storedAt := now } }
        executed := true } := by
  simp [fetch_sites, hc, hge]

/-- Invariant: whatever the sites cache slot holds is a row-set sorted by
name.  It holds for the empty cache, and every call preserves it. -/
def SitesCacheSorted (cache : Cache) : Prop :=
  ∀ e, cache.sites = some e → List.Sorted siteLe e.value

/-! ## Claim theorems -/

/-- C1: a move submission with `delta_mt <= 0` or `from_key == to_key` is
rejected before any call to the stored procedure or to the per-site query,
an inline validation error is the only output, and the read cache is left
unchanged. -/
theorem c1_invalid_move_rejected (db : Db) (cache : Cache) (proc : MoveProc)
    (from_key to_key : String) (delta_mt : ℚ)
    (h : delta_mt ≤ 0 ∨ from_key = to_key) :
    (moveHandler db cache proc from_key to_key delta_mt).procCalls = [] ∧
    (moveHandler db cache proc from_key to_key delta_mt).detailQueries = [] ∧
    (moveHandler db cache proc from_key to_key delta_mt).cache = cache ∧
    ((moveHandler db cache proc from_key to_key delta_mt).events =
        [Event.error "Enter a positive MT amount."] ∨
      (moveHandler db cache proc from_key to_key delta_mt).events =
        [Event.error "From and To must be different sites."]) := by
  by_cases hd : delta_mt ≤ 0
  · simp [moveHandler, hd]
  · have ht : from_key = to_key := h.resolve_left hd
    simp [moveHandler, hd, ht]

theorem c1_invalid_move_rejected_witness :
    (moveHandler cexDb Cache.empty errProc "A" "B" 0).procCalls = [] ∧
    (moveHandler cexDb Cache.empty errProc "A" "B" 0).detailQueries = [] ∧
    (moveHandler cexDb Cache.empty errProc "A" "B" 0).cache = Cache.empty ∧
    ((moveHandler cexDb Cache.empty errProc "A" "B" 0).events =
        [Event.error "Enter a positive MT amount."] ∨
      (moveHandler cexDb Cache.empty errProc "A" "B" 0).events =
        [Event.error "From and To must be different sites."]) :=
  c1_invalid_move_rejected cexDb Cache.empty errProc "A" "B" 0 (Or.inl (by decide))

/-- C2: `fetch_totals` performs no caching: every call executes the totals
query against the current database state, returns its fresh row-set, and
leaves the cache exactly as it was — also on a second call right after a
first one, and also when the database changed in between. -/
theorem c2_totals_always_fresh (db1 db2 : Db) (cache : Cache) :
    fetch_totals db1 cache =
      { value := db1.rf_overall_totals, cache := cache, executed := true } ∧
    fetch_totals db2 (fetch_totals db1 cache).cache =
      { value := db2.rf_overall_totals, cache := cache, executed := true } :=
  ⟨rfl, rfl⟩

/-- C4: on a successful move the whole read cache is cleared, a rerun (full
re-fetch and re-render) is triggered, the confirmation event carries the
before/after totals returned by the procedure for both sites, and the
procedure was invoked exactly once with the submitted arguments. -/
theorem c4_success_clears_cache_and_confirms (db : Db) (cache : Cache)
    (proc : MoveProc) (from_key to_key : String) (delta_mt : ℚ) (res : MoveRow)
    (hd : 0 < delta_mt) (hk : from_key ≠ to_key)
    (hp : proc from_key to_key delta_mt = Except.ok res) :
    (moveHandler db cache proc from_key to_key delta_mt).cache = Cache.empty ∧
    Event.rerun ∈ (moveHandler db cache proc from_key to_key delta_mt).events ∧
    Event.success delta_mt res.from_before res.from_after res.to_before res.to_after
      ∈ (moveHandler db cache proc from_key to_key delta_mt).events ∧
    (moveHandler db cache proc from_key to_key delta_mt).procCalls =
      [(from_key, to_key, delta_mt)] := by
  have hd' : ¬ delta_mt ≤ 0 := not_le.mpr hd
  simp [moveHandler, call_move, hd', hk, hp]

theorem c4_success_clears_cache_and_confirms_witness :
    (moveHandler cexDb Cache.empty okProc "A" "B" 20).cache = Cache.empty ∧
    Event.rerun ∈ (moveHandler cexDb Cache.empty okProc "A" "B" 20).events ∧
    Event.success 20 100 80 50 70
      ∈ (moveHandler cexDb Cache.empty okProc "A" "B" 20).events ∧
    (moveHandler cexDb Cache.empty okProc "A" "B" 20).procCalls = [("A", "B", 20)] :=
  c4_success_clears_cache_and_confirms cexDb Cache.empty okProc "A" "B" 20
    ⟨100, 80, 50, 70⟩ (by decide) (by decide) rfl

/-- C5: `call_move` validates nothing — for every argument triple it is a
pure pass-through to the stored procedure, returning whatever single row
the procedure produces; and when the procedure raises, the workflow shows
the raised message verbatim and mutates no cached data. -/
theorem c5_call_move_pass_through (db : Db) (cache : Cache) (proc : MoveProc)
    (from_key to_key : String) (delta_mt : ℚ) (e : String) :
    call_move proc from_key to_key delta_mt = proc from_key to_key delta_mt ∧
    (0 < delta_mt → from_key ≠ to_key →
      proc from_key to_key delta_mt = Except.error e →
      (moveHandler db cache proc from_key to_key delta_mt).cache = cache ∧
      Event.error e ∈ (moveHandler db cache proc from_key to_key delta_mt).events ∧
      (moveHandler db cache proc from_key to_key delta_mt).procCalls =
        [(from_key, to_key, delta_mt)]) := by
  refine ⟨rfl, fun hd hk hp => ?_⟩
  have hd' : ¬ delta_mt ≤ 0 := not_le.mpr hd
  simp [moveHandler, call_move, hd', hk, hp]

theorem c5_call_move_pass_through_witness :
    call_move errProc "A" "B" 20 = errProc "A" "B" 20 ∧
    ((moveHandler cexDb Cache.empty errProc "A" "B" 20).cache = Cache.empty ∧
      Event.error "insufficient material"
        ∈ (moveHandler cexDb Cache.empty errProc "A" "B" 20).events ∧
      (moveHandler cexDb Cache.empty errProc "A" "B" 20).procCalls = [("A", "B", 20)]) :=
  ⟨(c5_call_move_pass_through cexDb Cache.empty errProc "A" "B" 20
      "insufficient material").1,
    (c5_call_move_pass_through cexDb Cache.empty errProc "A" "B" 20
      "insufficient material").2 (by decide) (by decide) rfl⟩

/-- C9: after a failed procedure call the handler still runs a fresh
per-site query for the from-site and displays it under the updated-rows
heading; after a successful call the rerun ends the script run first, so no
per-site query runs and no dataframe is displayed. -/
theorem c9_rows_displayed_only_after_failure (db : Db) (cache : Cache)
    (proc : MoveProc) (from_key to_key : String) (delta_mt : ℚ)
    (hd : 0 < delta_mt) (hk : from_key ≠ to_key) :
    (∀ e, proc from_key to_key delta_mt = Except.error e →
      (moveHandler db cache proc from_key to_key delta_mt).events =
        [Event.error e, Event.write "Updated rows for \x27From\x27 site:",
          Event.dataframe (fetch_rows_for_site db from_key)] ∧
      (moveHandler db cache proc from_key to_key delta_mt).detailQueries = [from_key]) ∧
    (∀ res, proc from_key to_key delta_mt = Except.ok res →
      (moveHandler db cache proc from_key to_key delta_mt).detailQueries = [] ∧
      ∀ rows, Event.dataframe rows ∉
        (moveHandler db cache proc from_key to_key delta_mt).events) := by
  have hd' : ¬ delta_mt ≤ 0 := not_le.mpr hd
  constructor
  · intro e hp
    simp [moveHandler, call_move, hd', hk, hp]
  · intro res hp
    simp [moveHandler, call_move, hd', hk, hp]

theorem c9_rows_displayed_only_after_failure_witness :
    (moveHandler cexDb Cache.empty errProc "A" "B" 20).events =
      [Event.error "insufficient material",
        Event.write "Updated rows for \x27From\x27 site:",
        Event.dataframe (fetch_rows_for_site cexDb "A")] ∧
    (moveHandler cexDb Cache.empty errProc "A" "B" 20).detailQueries = ["A"] :=
  (c9_rows_displayed_only_after_failure cexDb Cache.empty errProc "A" "B" 20
    (by decide) (by decide)).1 "insufficient material" rfl

/-- C7: the connection string is taken from the environment variable when
set and non-empty, falls back to the secrets store when the variable is
unset, and when both are absent the script halts at startup with the
user-visible message, no query executed and nothing rendered. -/
theorem c7_dsn_resolution_and_halt (env secrets : Option String) (db : Db)
    (cache : Cache) (now : ℚ) :
    (∀ s, env = some s → s ≠ "" → appInit env secrets = Init.proceed s) ∧
    (env = none → ∀ s, secrets = some s → s ≠ "" →
      appInit env secrets = Init.proceed s) ∧
    (env = none → secrets = none →
      appInit env secrets = Init.halt noDsnMsg ∧
      appScript env secrets db cache now =
        { events := [Event.error noDsnMsg], cache := cache, queriesExecuted := 0 }) := by
  refine ⟨?_, ?_, ?_⟩
  · rintro s rfl hs
    simp [appInit, pyTruthy, hs]
  · rintro rfl s rfl hs
    simp [appInit, pyTruthy, hs]
  · rintro rfl rfl
    exact ⟨rfl, rfl⟩

theorem c7_dsn_resolution_and_halt_witness :
    appInit none none = Init.halt noDsnMsg ∧
    appScript none none cexDb Cache.empty 0 =
      { events := [Event.error noDsnMsg], cache := Cache.empty, queriesExecuted := 0 } :=
  (c7_dsn_resolution_and_halt none none cexDb Cache.empty 0).2.2 rfl rfl

lemma sorted_sitesQuery (db : Db) : List.Sorted siteLe (sitesQuery db) :=
  List.sorted_insertionSort siteLe _

/-- C6: `fetch_sites` returns the name-sorted query result and keeps it in
the single shared cache slot stamped with the call time; a repeated call
within the 30-second time-to-live returns the identical row-set without
executing the query; and every call preserves sortedness of whatever the
slot holds. -/
theorem c6_sites_sorted_and_cached (db : Db) (cache : Cache) (now1 now2 : ℚ) :
    (SitesCacheSorted cache →
      List.Sorted siteLe (fetch_sites db cache now1).value ∧
      SitesCacheSorted (fetch_sites db cache now1).cache) ∧
    ((fetch_sites db cache now1).executed = true →
      (fetch_sites db cache now1).value = sitesQuery db ∧
      (fetch_sites db cache now1).cache.sites =
        some { value := sitesQuery db, storedAt := now1 } ∧
      (now2 - now1 < 30 →
        (fetch_sites db (fetch_sites db cache now1).cache now2).executed = false ∧
        (fetch_sites db (fetch_sites db cache now1).cache now2).value =
          (fetch_sites db cache now1).value)) := by
  constructor
  · intro hs
    cases hc : cache.sites with
    | none =>
      rw [fetch_sites_none hc]
      refine ⟨sorted_sitesQuery db, fun e he => ?_⟩
      have he' : some ({ value := sitesQuery db, storedAt := now1 } :
          CacheEntry (List SiteAgg)) = some e := he
      obtain rfl := Option.some_injective _ he'
      exact sorted_sitesQuery db
    | some e =>
      by_cases hlt : now1 - e.storedAt < 30
      · rw [fetch_sites_hit hc hlt]
        exact ⟨hs e hc, hs⟩
      · rw [fetch_sites_stale hc hlt]
        refine ⟨sorted_sitesQuery db, fun x hx => ?_⟩
        have hx' : some ({ value := sitesQuery db, storedAt := now1 } :
            CacheEntry (List SiteAgg)) = some x := hx
        obtain rfl := Option.some_injective _ hx'
        exact sorted_sitesQuery db
  · intro hex
    rw [fetch_sites_miss hex]
    refine ⟨rfl, rfl, fun hlt => ?_⟩
    rw [fetch_sites_hit (e := { value := sitesQuery db, storedAt := now1 }) rfl hlt]
    exact ⟨rfl, rfl⟩

theorem c6_sites_sorted_and_cached_witness :
    (fetch_sites cexDb (fetch_sites cexDb Cache.empty 0).cache 10).executed = false ∧
    (fetch_sites cexDb (fetch_sites cexDb Cache.empty 0).cache 10).value =
      (fetch_sites cexDb Cache.empty 0).value :=
  ((c6_sites_sorted_and_cached cexDb Cache.empty 0 10).2 rfl).2.2 (by norm_num)

/-- C8: every row of `fetch_rows_for_site` stems from an `rf_static` row of
that site, and its `mt_current` column equals the override when one is
present and `mt_total` otherwise (coalesce), so a row with no override
reports `mt_current = mt_total`. -/
theorem c8_mt_current_is_coalesce (db : Db) (key : String) (r : SiteDetailRow)
    (hr : r ∈ fetch_rows_for_site db key) :
    ∃ x, x ∈ db.rf_static ∧ x.site_key = key ∧ r.mt_total = x.mt_total ∧
      ((∃ v, x.mt_total_override = some v ∧ r.mt_current = v) ∨
        (x.mt_total_override = none ∧ r.mt_current = r.mt_total)) := by
  unfold fetch_rows_for_site at hr
  rw [List.mem_insertionSort, List.mem_map] at hr
  obtain ⟨x, hx, rfl⟩ := hr
  obtain ⟨hx1, hx2⟩ := List.mem_filter.mp hx
  refine ⟨x, hx1, of_decide_eq_true hx2, rfl, ?_⟩
  cases ho : x.mt_total_override with
  | some v => exact Or.inl ⟨v, rfl, by simp [toDetailRow, ho]⟩
  | none => exact Or.inr ⟨rfl, by simp [toDetailRow, ho]⟩

theorem c8_mt_current_is_coalesce_witness :
    ∃ x, x ∈ cexDb.rf_static ∧ x.site_key = "A" ∧
      (toDetailRow rowA1).mt_total = x.mt_total ∧
      ((∃ v, x.mt_total_override = some v ∧ (toDetailRow rowA1).mt_current = v) ∨
        (x.mt_total_override = none ∧
          (toDetailRow rowA1).mt_current = (toDetailRow rowA1).mt_total)) :=
  c8_mt_current_is_coalesce cexDb "A" (toDetailRow rowA1)
    ((List.mem_insertionSort detailLe).mpr (List.mem_cons_self _ _))

/-- C10: every site row produced by an executing `fetch_sites` call places
the site at the arithmetic mean of the latitudes and longitudes of the
(nonempty) set of `rf_static` rows in its group. -/
theorem c10_position_is_group_mean (db : Db) (cache : Cache) (now : ℚ)
    (r : SiteAgg) (hex : (fetch_sites db cache now).executed = true)
    (hr : r ∈ (fetch_sites db cache now).value) :
    0 < (groupRows db.rf_static (r.site_key, r.name, r.address)).length ∧
    r.lat =
      ((groupRows db.rf_static (r.site_key, r.name, r.address)).map RfStaticRow.lat).sum /
        (((groupRows db.rf_static (r.site_key, r.name, r.address)).map RfStaticRow.lat).length : ℚ) ∧
    r.lon =
      ((groupRows db.rf_static (r.site_key, r.name, r.address)).map RfStaticRow.lon).sum /
        (((groupRows db.rf_static (r.site_key, r.name, r.address)).map RfStaticRow.lon).length : ℚ) := by
  have hv : (fetch_sites db cache now).value = sitesQuery db := by
    rw [fetch_sites_miss hex]
  rw [hv] at hr
  obtain ⟨k, hk, rfl⟩ := mem_sitesQuery_iff.mp hr
  obtain ⟨a, b, c⟩ := k
  exact ⟨groupRows_pos_of_mem_distinctKeys hk, rfl, rfl⟩

theorem c10_position_is_group_mean_witness :
    0 < (groupRows cexDb.rf_static
      ((aggOf cexDb.rf_static ("A", "Alpha", "1 Road")).site_key,
        (aggOf cexDb.rf_static ("A", "Alpha", "1 Road")).name,
        (aggOf cexDb.rf_static ("A", "Alpha", "1 Road")).address)).length ∧
    (aggOf cexDb.rf_static ("A", "Alpha", "1 Road")).lat =
      ((groupRows cexDb.rf_static
        ((aggOf cexDb.rf_static ("A", "Alpha", "1 Road")).site_key,
          (aggOf cexDb.rf_static ("A", "Alpha", "1 Road")).name,
          (aggOf cexDb.rf_static ("A", "Alpha", "1 Road")).address)).map RfStaticRow.lat).sum /
        (((groupRows cexDb.rf_static
          ((aggOf cexDb.rf_static ("A", "Alpha", "1 Road")).site_key,
            (aggOf cexDb.rf_static ("A", "Alpha", "1 Road")).name,
            (aggOf cexDb.rf_static ("A", "Alpha", "1 Road")).address)).map RfStaticRow.lat).length : ℚ) ∧
    (aggOf cexDb.rf_static ("A", "Alpha", "1 Road")).lon =
      ((groupRows cexDb.rf_static
        ((aggOf cexDb.rf_static ("A", "Alpha", "1 Road")).site_key,
          (aggOf cexDb.rf_static ("A", "Alpha", "1 Road")).name,
          (aggOf cexDb.rf_static ("A", "Alpha", "1 Road")).address)).map RfStaticRow.lon).sum /
        (((groupRows cexDb.rf_static
          ((aggOf cexDb.rf_static ("A", "Alpha", "1 Road")).site_key,
            (aggOf cexDb.rf_static ("A", "Alpha", "1 Road")).name,
            (aggOf cexDb.rf_static ("A", "Alpha", "1 Road")).address)).map RfStaticRow.lon).length : ℚ) :=
  c10_position_is_group_mean cexDb Cache.empty 0
    (aggOf cexDb.rf_static ("A", "Alpha", "1 Road")) rfl
    ((List.mem_insertionSort siteLe).mpr (List.mem_map_of_mem _ (List.mem_cons_self _ _)))

/-- C3 (amended): every site row produced by an executing `fetch_sites`
call carries the group's row count and its baseline loads and transfer
hours sums — with `num_loads`/`transfer_hours_yr` duplicating the baseline
sums — alongside the averaged `mt_total` and `round_trip_hours` and the
maximal `road_restrictions`; no current loads/hours aggregate is
returned. -/
theorem c3_site_rows_aggregate_baseline (db : Db) (cache : Cache) (now : ℚ)
    (r : SiteAgg) (hex : (fetch_sites db cache now).executed = true)
    (hr : r ∈ (fetch_sites db cache now).value) :
    r.row_count = (groupRows db.rf_static (r.site_key, r.name, r.address)).length ∧
    0 < r.row_count ∧
    r.num_loads =
      ((groupRows db.rf_static (r.site_key, r.name, r.address)).map
        RfStaticRow.baseline_num_loads).sum ∧
    r.baseline_num_loads =
      ((groupRows db.rf_static (r.site_key, r.name, r.address)).map
        RfStaticRow.baseline_num_loads).sum ∧
    r.transfer_hours_yr =
      ((groupRows db.rf_static (r.site_key, r.name, r.address)).map
        RfStaticRow.baseline_transfer_hours_yr).sum ∧
    r.baseline_transfer_hours_yr =
      ((groupRows db.rf_static (r.site_key, r.name, r.address)).map
        RfStaticRow.baseline_transfer_hours_yr).sum ∧
    r.mt_total =
      qavg ((groupRows db.rf_static (r.site_key, r.name, r.address)).map
        RfStaticRow.mt_total) ∧
    r.round_trip_hours =
      qavg ((groupRows db.rf_static (r.site_key, r.name, r.address)).map
        RfStaticRow.round_trip_hours) ∧
    r.road_restrictions =
      listMaxStr ((groupRows db.rf_static (r.site_key, r.name, r.address)).map
        RfStaticRow.road_restrictions) := by
  have hv : (fetch_sites db cache now).value = sitesQuery db := by
    rw [fetch_sites_miss hex]
  rw [hv] at hr
  obtain ⟨k, hk, rfl⟩ := mem_sitesQuery_iff.mp hr
  obtain ⟨a, b, c⟩ := k
  exact ⟨rfl, groupRows_pos_of_mem_distinctKeys hk, rfl, rfl, rfl, rfl, rfl, rfl, rfl⟩

theorem c3_site_rows_aggregate_baseline_witness :
    (aggOf cexDb.rf_static ("A", "Alpha", "1 Road")).num_loads =
      ((groupRows cexDb.rf_static
        ((aggOf cexDb.rf_static ("A", "Alpha", "1 Road")).site_key,
          (aggOf cexDb.rf_static ("A", "Alpha", "1 Road")).name,
          (aggOf cexDb.rf_static ("A", "Alpha", "1 Road")).address)).map
        RfStaticRow.baseline_num_loads).sum ∧
    0 < (aggOf cexDb.rf_static ("A", "Alpha", "1 Road")).row_count :=
  ⟨(c3_site_rows_aggregate_baseline cexDb Cache.empty 0
      (aggOf cexDb.rf_static ("A", "Alpha", "1 Road")) rfl
      ((List.mem_insertionSort siteLe).mpr (List.mem_map_of_mem _ (List.mem_cons_self _ _)))).2.2.1,
    (c3_site_rows_aggregate_baseline cexDb Cache.empty 0
      (aggOf cexDb.rf_static ("A", "Alpha", "1 Road")) rfl
      ((List.mem_insertionSort siteLe).mpr (List.mem_map_of_mem _ (List.mem_cons_self _ _)))).2.1⟩

/-- C3 (counterexample to the claim as stated): on `cexDb` the single site
row returned by the sites query is `alphaAgg`, whose four loads/hours
columns all hold the baseline aggregates 2 and 8, while the group's current
loads and transfer hours aggregates are 3 and 12 — so the row does not
carry the current loads/hours aggregates the claim promises. -/
theorem c3_no_current_aggregates_counterexample :
    sitesQuery cexDb = [alphaAgg] ∧
    ((groupRows cexDb.rf_static ("A", "Alpha", "1 Road")).map
      RfStaticRow.current_num_loads).sum = 3 ∧
    ((groupRows cexDb.rf_static ("A", "Alpha", "1 Road")).map
      RfStaticRow.current_transfer_hours_yr).sum = 12 ∧
    alphaAgg.num_loads ≠ 3 ∧ alphaAgg.baseline_num_loads ≠ 3 ∧
    alphaAgg.transfer_hours_yr ≠ 12 ∧ alphaAgg.baseline_transfer_hours_yr ≠ 12 := by
  have hgr : groupRows cexDb.rf_static ("A", "Alpha", "1 Road") = [rowA1] := rfl
  refine ⟨?_, ?_, ?_, ?_, ?_, ?_, ?_⟩
  · show [aggOf cexDb.rf_static ("A", "Alpha", "1 Road")] = [alphaAgg]
    rw [List.cons.injEq]
    refine ⟨?_, rfl⟩
    simp only [aggOf, hgr, alphaAgg, rowA1, qavg, listMaxStr, List.map_cons,
      List.map_nil, List.sum_cons, List.sum_nil, List.length_cons,
      List.length_nil, List.foldl_nil]
    norm_num
  · rw [hgr]
    simp [rowA1]
  · rw [hgr]
    simp [rowA1]
  · norm_num [alphaAgg]
  · norm_num [alphaAgg]
  · norm_num [alphaAgg]
  · norm_num [alphaAgg]

end TransferModel
